import Mathlib

/-!
Verification development for the buffer-domain transfer element
(sys/nvcodec/gstcudamemorycopy.c) and the presentation surface
(ext/wayland/wlwindow.c).

The C code is embedded shallowly:
  - element state fields become structure fields;
  - results of driver or platform calls (buffer maps, CUDA copies, the GL
    interop run) become boolean oracles supplied as parameters;
  - calls whose only effect is outside the element (protocol requests,
    driver submissions) are recorded as events in an explicit trace.
-/

/- ## Memory domains, gstcudamemorycopy.c -/

/-- Memory domain tags, mirroring GstCudaMemoryCopyMemType. -/
inductive MemType
  | system
  | cuda
  | nvmm
  | gl
deriving DecidableEq

/-- Domain-relevant predicates on the first GstMemory of a buffer:
gst_is_cuda_memory and gst_is_gl_memory_pbo. -/
structure MemFlags where
  isCudaMemory : Bool
  isGlMemoryPbo : Bool
deriving DecidableEq

/-- State of GstCudaMemoryCopy relevant to classification: the in_nvmm and
out_nvmm flags set by set_info, and whether self->gl_context is non-null. -/
structure CopyElem where
  in_nvmm : Bool
  out_nvmm : Bool
  gl_context : Bool
deriving DecidableEq

/-- Embedding of gst_cuda_memory_copy_set_info: in_nvmm and out_nvmm are
first cleared and then set from the caps features only when the process-wide
gst_cuda_nvmm_init_once check succeeded. -/
def gst_cuda_memory_copy_set_info (nvmm_init_once : Bool)
    (in_caps_nvmm out_caps_nvmm : Bool) (self : CopyElem) : CopyElem :=
  if nvmm_init_once then
    { self with in_nvmm := in_caps_nvmm, out_nvmm := out_caps_nvmm }
  else
    { self with in_nvmm := false, out_nvmm := false }

/-- Input-side classification in gst_cuda_memory_copy_transform: NVMM flag
first, then CUDA memory, then GL PBO memory (only if self->gl_context is
available), otherwise system memory. -/
def classify_input (self : CopyElem) (m : MemFlags) : MemType :=
  if self.in_nvmm then MemType.nvmm
  else if m.isCudaMemory then MemType.cuda
  else if self.gl_context && m.isGlMemoryPbo then MemType.gl
  else MemType.system

/-- Output-side classification in gst_cuda_memory_copy_transform. -/
def classify_output (self : CopyElem) (m : MemFlags) : MemType :=
  if self.out_nvmm then MemType.nvmm
  else if m.isCudaMemory then MemType.cuda
  else if self.gl_context && m.isGlMemoryPbo then MemType.gl
  else MemType.system

/-- use_device_copy is set exactly by the NVMM and CUDA classification
branches on either side. -/
def use_device_copy_flag (in_type out_type : MemType) : Bool :=
  (in_type == MemType.nvmm || in_type == MemType.cuda)
    || (out_type == MemType.nvmm || out_type == MemType.cuda)

/-- One attempted copy strategy inside gst_cuda_memory_copy_transform. -/
inductive Strategy
  | sysmem
  | cuda_copy (in_type out_type : MemType)
  | gl_interop (pbo_to_cuda : Bool) (cuda_mem_type : MemType)
deriving DecidableEq

/-- GstFlowReturn restricted to the two values the transform produces. -/
inductive FlowReturn
  | ok
  | error
deriving DecidableEq

/-- Dispatch of gst_cuda_memory_copy_transform after both memory types have
been computed. The oracle gives the boolean result of each attempted copy
routine. The returned list records the attempted strategies in order.

Note the two GL branches reproduce the source literally, including
`ret = !gst_cuda_memory_copy_transform_sysmem (...)` on their non-NVMM
fallback, where the boolean result of the staged copy is negated. -/
def transform_from_types (self : CopyElem) (in_type out_type : MemType)
    (oracle : Strategy → Bool) : FlowReturn × List Strategy :=
  if !(use_device_copy_flag in_type out_type) then
    if oracle Strategy.sysmem then (FlowReturn.ok, [Strategy.sysmem])
    else (FlowReturn.error, [Strategy.sysmem])
  else if in_type == MemType.gl then
    if oracle (Strategy.gl_interop true out_type) then
      (FlowReturn.ok, [Strategy.gl_interop true out_type])
    else if out_type == MemType.nvmm then
      if oracle (Strategy.cuda_copy MemType.system out_type) then
        (FlowReturn.ok,
          [Strategy.gl_interop true out_type,
            Strategy.cuda_copy MemType.system out_type])
      else
        (FlowReturn.error,
          [Strategy.gl_interop true out_type,
            Strategy.cuda_copy MemType.system out_type])
    else
      if !(oracle Strategy.sysmem) then
        (FlowReturn.ok, [Strategy.gl_interop true out_type, Strategy.sysmem])
      else
        (FlowReturn.error, [Strategy.gl_interop true out_type, Strategy.sysmem])
  else if out_type == MemType.gl then
    if oracle (Strategy.gl_interop false in_type) then
      (FlowReturn.ok, [Strategy.gl_interop false in_type])
    else if in_type == MemType.nvmm then
      if oracle (Strategy.cuda_copy in_type MemType.system) then
        (FlowReturn.ok,
          [Strategy.gl_interop false in_type,
            Strategy.cuda_copy in_type MemType.system])
      else
        (FlowReturn.error,
          [Strategy.gl_interop false in_type,
            Strategy.cuda_copy in_type MemType.system])
    else
      if !(oracle Strategy.sysmem) then
        (FlowReturn.ok, [Strategy.gl_interop false in_type, Strategy.sysmem])
      else
        (FlowReturn.error, [Strategy.gl_interop false in_type, Strategy.sysmem])
  else
    if oracle (Strategy.cuda_copy in_type out_type) then
      (FlowReturn.ok, [Strategy.cuda_copy in_type out_type])
    else if !self.in_nvmm && !self.out_nvmm then
      if oracle Strategy.sysmem then
        (FlowReturn.ok, [Strategy.cuda_copy in_type out_type, Strategy.sysmem])
      else
        (FlowReturn.error,
          [Strategy.cuda_copy in_type out_type, Strategy.sysmem])
    else
      (FlowReturn.error, [Strategy.cuda_copy in_type out_type])

/-- Embedding of gst_cuda_memory_copy_transform (after the nonempty-buffer
checks): classify both ends, then dispatch. -/
def gst_cuda_memory_copy_transform (self : CopyElem)
    (in_mem out_mem : MemFlags) (oracle : Strategy → Bool) :
    FlowReturn × List Strategy :=
  transform_from_types self (classify_input self in_mem)
    (classify_output self out_mem) oracle

/-- Oracle for the C1 scenario: the GL interop copy fails and the staged
sysmem copy succeeds. -/
def oracle_interop_fails_fallback_ok : Strategy → Bool
  | Strategy.sysmem => true
  | _ => false

/-- Oracle where every copy routine fails. -/
def oracle_all_fail : Strategy → Bool := fun _ => false

/- ## Staged system-memory copy, gst_cuda_memory_copy_transform_sysmem -/

/-- Which of the two buffers an event concerns. -/
inductive Side
  | input
  | output
deriving DecidableEq, BEq

/-- Access mode passed to gst_video_frame_map. -/
inductive MapAccess
  | read
  | write
deriving DecidableEq, BEq

/-- Events performed by the staged copy routine. -/
inductive SysEv
  | map_attempt (s : Side) (a : MapAccess) (ok : Bool)
  | unmap_ev (s : Side)
  | frame_copy (ok : Bool)
deriving DecidableEq, BEq

/-- Embedding of gst_cuda_memory_copy_transform_sysmem. The three booleans
are the results of mapping the input frame, mapping the output frame and
gst_video_frame_copy. Returns the boolean result and the event trace. -/
def gst_cuda_memory_copy_transform_sysmem (mapInOk mapOutOk copyOk : Bool) :
    Bool × List SysEv :=
  if !mapInOk then
    (false, [SysEv.map_attempt Side.input MapAccess.read false])
  else if !mapOutOk then
    (false,
      [SysEv.map_attempt Side.input MapAccess.read true,
        SysEv.map_attempt Side.output MapAccess.write false,
        SysEv.unmap_ev Side.input])
  else
    (copyOk,
      [SysEv.map_attempt Side.input MapAccess.read true,
        SysEv.map_attempt Side.output MapAccess.write true,
        SysEv.frame_copy copyOk,
        SysEv.unmap_ev Side.output,
        SysEv.unmap_ev Side.input])

/-- Counts a successful map of side s. -/
def successful_map (s : Side) : SysEv → Bool
  | SysEv.map_attempt s2 _ true => s2 == s
  | _ => false

/-- Counts an unmap of side s. -/
def unmap_of (s : Side) : SysEv → Bool
  | SysEv.unmap_ev s2 => s2 == s
  | _ => false

/-- Checks that every map attempt uses read access on the input buffer and
write access on the output buffer. -/
def map_access_correct : SysEv → Bool
  | SysEv.map_attempt Side.input a _ => a == MapAccess.read
  | SysEv.map_attempt Side.output a _ => a == MapAccess.write
  | _ => true

/- ## Direct device copy, gst_cuda_memory_copy_transform_cuda -/

/-- Events performed by the direct device copy routine. -/
inductive CudaEv
  | map_in (ok : Bool)
  | map_out (ok : Bool)
  | push_ctx (ok : Bool)
  | copy_plane (i : Nat) (ok : Bool)
  | stream_sync
  | pop_ctx
  | unmap_in
  | unmap_out
deriving DecidableEq, BEq

/-- Per-plane loop of gst_cuda_memory_copy_transform_cuda: ret starts false,
each iteration stores the CuMemcpy2DAsync result into ret and breaks on the
first failure. Arguments: plane index, remaining iterations, current ret. -/
def plane_loop (f : Nat → Bool) : Nat → Nat → Bool → Bool × List CudaEv
  | _, 0, ret => (ret, [])
  | i, rem + 1, _ =>
    let ok := f i
    if ok then
      let next := plane_loop f (i + 1) rem ok
      (next.1, CudaEv.copy_plane i ok :: next.2)
    else
      (false, [CudaEv.copy_plane i false])

/-- Embedding of gst_cuda_memory_copy_transform_cuda. mapInOk and mapOutOk
are the results of the two gst_cuda_memory_copy_map_and_fill_copy2d calls,
pushOk the result of gst_cuda_context_push, f the per-plane CuMemcpy2DAsync
results, n the plane count of in_info. On a failed push the source still
calls gst_cuda_context_pop before jumping to the unmap exit. -/
def gst_cuda_memory_copy_transform_cuda (mapInOk mapOutOk pushOk : Bool)
    (f : Nat → Bool) (n : Nat) : Bool × List CudaEv :=
  if !mapInOk then
    (false, [CudaEv.map_in false])
  else if !mapOutOk then
    (false, [CudaEv.map_in true, CudaEv.map_out false, CudaEv.unmap_in])
  else if !pushOk then
    (false,
      [CudaEv.map_in true, CudaEv.map_out true, CudaEv.push_ctx false,
        CudaEv.pop_ctx, CudaEv.unmap_in, CudaEv.unmap_out])
  else
    let lp := plane_loop f 0 n false
    (lp.1,
      [CudaEv.map_in true, CudaEv.map_out true, CudaEv.push_ctx true]
        ++ lp.2
        ++ [CudaEv.stream_sync, CudaEv.pop_ctx, CudaEv.unmap_in,
            CudaEv.unmap_out])

/- ## NVMM plane descriptors, gst_cuda_memory_copy_map_and_fill_copy2d -/

/-- NvBufSurfaceMemType values distinguished by the source. -/
inductive NvBufSurfaceMemType
  | mem_default
  | cuda_device
  | cuda_pinned
  | cuda_unified
  | other (code : Nat)
deriving DecidableEq

/-- Per-plane parameters of an NvBufSurface (NvBufSurfacePlaneParams). -/
structure NvBufSurfacePlaneParams where
  num_planes : Nat
  offset : List Nat
  pitch : List Nat
  width : List Nat
  height : List Nat
  bytesPerPix : List Nat
deriving DecidableEq

/-- First entry of surface->surfaceList (NvBufSurfaceParams). -/
structure NvBufSurfaceParams where
  dataPtr : Nat
  planeParams : NvBufSurfacePlaneParams
deriving DecidableEq

/-- The NvBufSurface held by a mapped NVMM buffer; surfaceList is none when
the memory holds no buffer. -/
structure NvBufSurface where
  memType : NvBufSurfaceMemType
  surfaceList : Option NvBufSurfaceParams
deriving DecidableEq

/-- CUmemorytype values used in the copy descriptors. -/
inductive CuMemoryType
  | host
  | device
  | unified
deriving DecidableEq

/-- One side of a CUDA_MEMCPY2D descriptor together with the shared extent
fields, as filled for one plane. -/
structure CopyPlaneDesc where
  memType : CuMemoryType
  ptr : Nat
  pitch : Nat
  widthInBytes : Nat
  height : Nat
deriving DecidableEq

/-- CUmemorytype chosen by the switch on surface->memType; none for the
default branch that errors out. -/
def cu_memory_type_of : NvBufSurfaceMemType → Option CuMemoryType
  | NvBufSurfaceMemType.mem_default => some CuMemoryType.device
  | NvBufSurfaceMemType.cuda_device => some CuMemoryType.device
  | NvBufSurfaceMemType.cuda_pinned => some CuMemoryType.host
  | NvBufSurfaceMemType.cuda_unified => some CuMemoryType.unified
  | NvBufSurfaceMemType.other _ => none

/-- NVMM branch of gst_cuda_memory_copy_map_and_fill_copy2d: map the buffer,
require a surfaceList entry, require the plane count of the surface to equal
the plane count of the negotiated video info, select the memory type, and
fill every plane descriptor from the plane parameters of the surface itself
(offset, pitch, width times bytesPerPix, height). -/
def nvmm_map_and_fill_copy2d (mapOk : Bool) (surface : NvBufSurface)
    (info_num_planes : Nat) : Option (List CopyPlaneDesc) :=
  if !mapOk then none
  else
    match surface.surfaceList with
    | none => none
    | some sp =>
      let pp := sp.planeParams
      if pp.num_planes ≠ info_num_planes then none
      else
        match cu_memory_type_of surface.memType with
        | none => none
        | some mt =>
          some ((List.range pp.num_planes).map fun i =>
            { memType := mt
              ptr := sp.dataPtr + pp.offset.getD i 0
              pitch := pp.pitch.getD i 0
              widthInBytes := pp.width.getD i 0 * pp.bytesPerPix.getD i 0
              height := pp.height.getD i 0 })

/- ## Presentation surface, ext/wayland/wlwindow.c -/

/-- Integer rectangle (GstVideoRectangle style). -/
structure IRect where
  x : Int
  y : Int
  w : Int
  h : Int
deriving DecidableEq

/-- Video crop meta carried by a buffer (GstVideoCropMeta fields used). -/
structure CropMeta where
  x : Int
  y : Int
  width : Int
  height : Int
deriving DecidableEq

/-- Blending equation requested through zwp_blending_v1_set_blending. -/
inductive BlendEquation
  | fromSource
  | premultiplied
deriving DecidableEq

/-- Pixel formats distinguished by the border buffer path. -/
inductive VideoFormat
  | xRGB
  | BGRx
  | otherFormat
deriving DecidableEq

/-- The border filler buffer constructed by gst_wl_window_update_borders:
dimensions, the format passed to gst_video_info_set_format, and the byte
content written by gst_buffer_memset. -/
structure BorderBuffer where
  width : Int
  height : Int
  format : VideoFormat
  data : List Nat
deriving DecidableEq

/-- WL_SHM_FORMAT_XRGB8888 is requested as GST_VIDEO_FORMAT_xRGB on a
big-endian build and GST_VIDEO_FORMAT_BGRx on a little-endian build. -/
def border_format (bigEndian : Bool) : VideoFormat :=
  if bigEndian then VideoFormat.xRGB else VideoFormat.BGRx

/-- Both byte orders of the border format are XRGB8888-equivalent. -/
def is_xrgb8888_equivalent : VideoFormat → Bool
  | VideoFormat.xRGB => true
  | VideoFormat.BGRx => true
  | VideoFormat.otherFormat => false

/-- State of GstWlWindow. Fields up to render_rectangle are the C fields
used by the embedded operations; video_viewport and viewporter model the
presence of the optional protocol objects; blend_func models the optional
blending object; recorded_alpha and blend_equation record the last
zwp_blending_v1 requests; attached_border_buffer and border_attach_count
record the gst_wl_buffer_attach effect on the area surface. -/
structure GstWlWindow where
  src_x : Int
  src_y : Int
  src_width : Int
  src_height : Int
  scale : Int
  video_width : Int
  video_height : Int
  render_rectangle : IRect
  no_border_update : Bool
  video_viewport : Bool
  viewporter : Bool
  blend_func : Bool
  recorded_alpha : Option ℚ
  blend_equation : Option BlendEquation
  attached_border_buffer : Option BorderBuffer
  border_attach_count : Nat
deriving DecidableEq

/-- Field values established by gst_wl_window_init (src_width is the unset
sentinel -1, scale 1), with no buffer attached yet and no blending request
recorded. -/
def gst_wl_window_init_state : GstWlWindow :=
  { src_x := 0
    src_y := 0
    src_width := -1
    src_height := 0
    scale := 1
    video_width := 0
    video_height := 0
    render_rectangle := ⟨0, 0, 0, 0⟩
    no_border_update := false
    video_viewport := false
    viewporter := false
    blend_func := false
    recorded_alpha := none
    blend_equation := none
    attached_border_buffer := none
    border_attach_count := 0 }

/-- wl_fixed_from_int: a wl_fixed_t holds the integer times 256. -/
def wl_fixed_from_int (i : Int) : Int := i * 256

/-- Embedding of gst_wl_window_set_source_crop: with crop meta present all
four source fields are copied from the meta; without it only src_width is
set to the sentinel -1. -/
def gst_wl_window_set_source_crop (w : GstWlWindow) (crop : Option CropMeta) :
    GstWlWindow :=
  match crop with
  | some c =>
    { w with src_x := c.x, src_y := c.y, src_width := c.width,
             src_height := c.height }
  | none => { w with src_width := -1 }

/-- Condition under which gst_wl_window_resize_video_surface issues
wp_viewport_set_source: a video viewport exists and the fixed-point value of
src_width divided by scale (C division truncates toward zero) differs from
the fixed-point sentinel. -/
def viewport_source_applied (w : GstWlWindow) : Bool :=
  w.video_viewport
    && !(wl_fixed_from_int (Int.tdiv w.src_width w.scale)
          == wl_fixed_from_int (-1))

/-- Embedding of gst_wl_window_set_alpha: with a blending object present,
the alpha coefficient is recorded and the blending equation is FROMSOURCE
for alpha strictly below 1.0, PREMULTIPLIED otherwise. -/
def gst_wl_window_set_alpha (w : GstWlWindow) (alpha : ℚ) : GstWlWindow :=
  if w.blend_func then
    { w with recorded_alpha := some alpha,
             blend_equation :=
               some (if alpha < 1 then BlendEquation.fromSource
                     else BlendEquation.premultiplied) }
  else w

/-- The 1x1 zero-filled border buffer used with viewporter support
(info.size of a 1x1 XRGB8888-equivalent image is 4 bytes). -/
def border_buffer_1x1 (bigEndian : Bool) : BorderBuffer :=
  ⟨1, 1, border_format bigEndian, List.replicate 4 0⟩

/-- Embedding of gst_wl_window_update_borders: skip when no_border_update is
set; with viewporter support use a 1x1 buffer and set no_border_update, else
use the render rectangle size; allocate, zero-fill (gst_buffer_memset over
info.size, 4 bytes per pixel for XRGB8888-equivalent formats) and attach to
the area surface. -/
def gst_wl_window_update_borders (bigEndian : Bool) (w : GstWlWindow) :
    GstWlWindow :=
  if w.no_border_update then w
  else
    let dims : Int × Int :=
      if w.viewporter then (1, 1)
      else (w.render_rectangle.w, w.render_rectangle.h)
    let nbu := if w.viewporter then true else w.no_border_update
    { w with
        no_border_update := nbu
        attached_border_buffer :=
          some ⟨dims.1, dims.2, border_format bigEndian,
                List.replicate (dims.1 * dims.2 * 4).toNat 0⟩
        border_attach_count := w.border_attach_count + 1 }

/-- Embedding of gst_wl_window_set_render_rectangle restricted to the
modelled state: store the new rectangle, then run the border update. The
subsurface position, the area viewport destination, the video surface
resize and the damage and commit requests change no modelled field. -/
def gst_wl_window_set_render_rectangle (bigEndian : Bool) (w : GstWlWindow)
    (x y rw rh : Int) : GstWlWindow :=
  gst_wl_window_update_borders bigEndian
    { w with render_rectangle := ⟨x, y, rw, rh⟩ }

/-- Invariant tying the no_border_update flag to its only producer: the flag
is set exactly by a border update on a viewporter display, which attaches
the 1x1 zero buffer. -/
def border_inv (bigEndian : Bool) (w : GstWlWindow) : Prop :=
  w.no_border_update = true →
    w.viewporter = true ∧
      w.attached_border_buffer = some (border_buffer_1x1 bigEndian)

/-- Sequence of gst_wl_window_set_render_rectangle calls. -/
def apply_render_calls (bigEndian : Bool) (w : GstWlWindow) :
    List (Int × Int × Int × Int) → GstWlWindow
  | [] => w
  | c :: rest =>
    apply_render_calls bigEndian
      (gst_wl_window_set_render_rectangle bigEndian w c.1 c.2.1 c.2.2.1
        c.2.2.2) rest

/-- Window used for the C8 evaluation: a window whose surface state reports
a content scale factor of 2, with viewport support and an established crop. -/
def c8_window : GstWlWindow :=
  { gst_wl_window_init_state with
      scale := 2
      video_viewport := true
      viewporter := true
      src_x := 0
      src_y := 0
      src_width := 64
      src_height := 32 }

/- ## Geometry engine -/

/-- Content size in pixels. -/
structure NSize where
  w : Nat
  h : Nat
deriving DecidableEq

/-- Rectangle with nonnegative coordinates in destination pixel space. -/
structure NRect where
  x : Nat
  y : Nat
  w : Nat
  h : Nat
deriving DecidableEq

/-- Modelled from the spec: the letterbox geometry routine called by
gst_wl_window_resize_video_surface (gst_video_sink_center_rect in scaling
mode) is provided by the external video library and is not under src/.
Spec 4.1: scales content to the largest rectangle that fits inside the
bounding rectangle while preserving its aspect ratio and centers it; the
content is wider in ratio than the bound exactly when c.w * b.h exceeds
c.h * b.w, and the scaled extent on the other axis is the truncated
proportional size. -/
def computeFit (c : NSize) (b : NRect) : NRect :=
  if c.h * b.w < c.w * b.h then
    ⟨b.x, b.y + (b.h - b.w * c.h / c.w) / 2, b.w, b.w * c.h / c.w⟩
  else if c.w * b.h < c.h * b.w then
    ⟨b.x + (b.w - b.h * c.w / c.h) / 2, b.y, b.h * c.w / c.h, b.h⟩
  else
    ⟨b.x, b.y, b.w, b.h⟩

/-- The result rectangle lies fully inside the bound. -/
def fit_contained (r b : NRect) : Prop :=
  b.x ≤ r.x ∧ r.x + r.w ≤ b.x + b.w ∧ b.y ≤ r.y ∧ r.y + r.h ≤ b.y + b.h

/-- The result is centered in the bound up to integer rounding: each offset
is half the unused extent, rounded down. -/
def fit_centered (r b : NRect) : Prop :=
  r.x = b.x + (b.w - r.w) / 2 ∧ r.y = b.y + (b.h - r.h) / 2

/-- The aspect ratio of the content is preserved up to integer rounding:
one side is the truncated proportional image of the other. -/
def aspect_within_rounding (c : NSize) (r : NRect) : Prop :=
  (r.h * c.w ≤ r.w * c.h ∧ r.w * c.h < (r.h + 1) * c.w) ∨
    (r.w * c.h ≤ r.h * c.w ∧ r.h * c.w < (r.w + 1) * c.h)

/-- The result touches an edge of the bound on the x axis. -/
def fit_touches_x (r b : NRect) : Prop :=
  r.x = b.x ∨ r.x + r.w = b.x + b.w

/-- The result touches an edge of the bound on the y axis. -/
def fit_touches_y (r b : NRect) : Prop :=
  r.y = b.y ∨ r.y + r.h = b.y + b.h

/- ## Claims -/

/-- C1. For a transfer with a GL input and a CUDA (non-NVMM) output whose
interop copy fails, the source attempts exactly one staged sysmem fallback
and then returns the NEGATION of its result: with the fallback succeeding
the transform returns GST_FLOW_ERROR, and with the fallback failing it
returns GST_FLOW_OK. The claim states that the transform must succeed if
and only if the single fallback copy succeeds, so the code contradicts it
(the negation in `ret = !gst_cuda_memory_copy_transform_sysmem (...)`). -/
theorem C1_interop_fallback_result_inverted :
    gst_cuda_memory_copy_transform ⟨false, false, true⟩ ⟨false, true⟩
        ⟨true, false⟩ oracle_interop_fails_fallback_ok =
      (FlowReturn.error,
        [Strategy.gl_interop true MemType.cuda, Strategy.sysmem]) ∧
    oracle_interop_fails_fallback_ok Strategy.sysmem = true ∧
    gst_cuda_memory_copy_transform ⟨false, false, true⟩ ⟨false, true⟩
        ⟨true, false⟩ oracle_all_fail =
      (FlowReturn.ok,
        [Strategy.gl_interop true MemType.cuda, Strategy.sysmem]) ∧
    oracle_all_fail Strategy.sysmem = false := by
  refine ⟨rfl, rfl, rfl, rfl⟩

/-- C4. The staged copy maps the input for reading and the output for
writing, returns success exactly when both maps and the frame copy succeed
(so either map failing yields failure), and every successfully mapped
buffer is unmapped in the same run, on the success path and on every
failure path. -/
theorem C4_sysmem_map_unmap_balance (mapInOk mapOutOk copyOk : Bool) :
    (gst_cuda_memory_copy_transform_sysmem mapInOk mapOutOk copyOk).1 =
        (mapInOk && mapOutOk && copyOk) ∧
    ((gst_cuda_memory_copy_transform_sysmem mapInOk mapOutOk copyOk).2.countP
          (successful_map Side.input) =
        (gst_cuda_memory_copy_transform_sysmem mapInOk mapOutOk
            copyOk).2.countP (unmap_of Side.input)) ∧
    ((gst_cuda_memory_copy_transform_sysmem mapInOk mapOutOk copyOk).2.countP
          (successful_map Side.output) =
        (gst_cuda_memory_copy_transform_sysmem mapInOk mapOutOk
            copyOk).2.countP (unmap_of Side.output)) ∧
    (gst_cuda_memory_copy_transform_sysmem mapInOk mapOutOk copyOk).2.all
        map_access_correct = true := by
  cases mapInOk <;> cases mapOutOk <;> cases copyOk <;> decide

/-- C8. With the crop meta absent, gst_wl_window_set_source_crop sets
src_width to the sentinel -1 and changes nothing else; but on a window with
content scale factor 2 the next geometry computation still applies a source
viewport, because the sentinel is divided by the scale (truncating -1 / 2
to 0) before being compared with wl_fixed_from_int (-1). At scale 1 the
sentinel is recognized and the source viewport is skipped, as the claim
expects for every scale. -/
theorem C8_source_crop_reset_scaled_sentinel_bug :
    (gst_wl_window_set_source_crop c8_window none).src_width = -1 ∧
    gst_wl_window_set_source_crop c8_window none =
      { c8_window with src_width := -1 } ∧
    viewport_source_applied (gst_wl_window_set_source_crop c8_window none) =
      true ∧
    viewport_source_applied
        (gst_wl_window_set_source_crop { c8_window with scale := 1 } none) =
      false := by
  refine ⟨rfl, rfl, by decide, by decide⟩

/-- C2, counterexample. A 1:1 content in a 4 x 2 bound scales to 2 x 2 and
is centered with a 1 pixel border on each horizontal side, so it touches no
edge of the bound on the x axis: the claim that the result touches at
least one edge of the bound on EACH axis fails at this valid input (all
dimensions strictly positive). -/
theorem C2_letterbox_touch_counterexample :
    0 < (1 : Nat) ∧ 0 < (4 : Nat) ∧ 0 < (2 : Nat) ∧
    computeFit ⟨1, 1⟩ ⟨0, 0, 4, 2⟩ = ⟨1, 0, 2, 2⟩ ∧
    ¬ (fit_touches_x (computeFit ⟨1, 1⟩ ⟨0, 0, 4, 2⟩) ⟨0, 0, 4, 2⟩ ∧
        fit_touches_y (computeFit ⟨1, 1⟩ ⟨0, 0, 4, 2⟩) ⟨0, 0, 4, 2⟩) := by
  unfold fit_touches_x fit_touches_y
  decide

/-- C2, amended. For a bound and a content size with all dimensions
strictly positive, the letterbox geometry returns a rectangle fully
contained in the bound, centered up to integer rounding, preserving the
content aspect ratio up to integer rounding, and spanning the bound on at
least one axis (it need not touch an edge on the letterboxed axis). -/
theorem C2_letterbox_geometry_amended (c : NSize) (b : NRect)
    (hcw : 0 < c.w) (hch : 0 < c.h) (hbw : 0 < b.w) (hbh : 0 < b.h) :
    fit_contained (computeFit c b) b ∧ fit_centered (computeFit c b) b ∧
    aspect_within_rounding c (computeFit c b) ∧
    ((computeFit c b).w = b.w ∨ (computeFit c b).h = b.h) := by
  unfold computeFit fit_contained fit_centered aspect_within_rounding
  by_cases h1 : c.h * b.w < c.w * b.h
  · simp only [if_pos h1]
    have hle : b.w * c.h ≤ c.w * b.h := by
      rw [Nat.mul_comm]; exact Nat.le_of_lt h1
    have hshle : b.w * c.h / c.w ≤ b.h := by
      have h3 := Nat.div_le_div_right (c := c.w) hle
      rwa [Nat.mul_div_cancel_left _ hcw] at h3
    have hhalf : (b.h - b.w * c.h / c.w) / 2 ≤ b.h - b.w * c.h / c.w :=
      Nat.div_le_self _ _
    refine ⟨⟨?_, ?_, ?_, ?_⟩, ⟨?_, ?_⟩, Or.inl ⟨?_, ?_⟩, Or.inl ?_⟩
    · exact Nat.le_refl _
    · exact Nat.le_refl _
    · exact Nat.le_add_right _ _
    · omega
    · simp
    · trivial
    · exact Nat.div_mul_le_self _ _
    · rw [Nat.succ_mul]
      exact Nat.lt_div_mul_add hcw
    · trivial
  · by_cases h2 : c.w * b.h < c.h * b.w
    · simp only [if_neg h1, if_pos h2]
      have hle : b.h * c.w ≤ c.h * b.w := by
        rw [Nat.mul_comm]; exact Nat.le_of_lt h2
      have hswle : b.h * c.w / c.h ≤ b.w := by
        have h3 := Nat.div_le_div_right (c := c.h) hle
        rwa [Nat.mul_div_cancel_left _ hch] at h3
      have hhalf : (b.w - b.h * c.w / c.h) / 2 ≤ b.w - b.h * c.w / c.h :=
        Nat.div_le_self _ _
      refine ⟨⟨?_, ?_, ?_, ?_⟩, ⟨?_, ?_⟩, Or.inr ⟨?_, ?_⟩, Or.inr ?_⟩
      · exact Nat.le_add_right _ _
      · omega
      · exact Nat.le_refl _
      · exact Nat.le_refl _
      · trivial
      · simp
      · exact Nat.div_mul_le_self _ _
      · rw [Nat.succ_mul]
        exact Nat.lt_div_mul_add hch
      · trivial
    · simp only [if_neg h1, if_neg h2]
      have heq : c.h * b.w = c.w * b.h :=
        Nat.le_antisymm (Nat.le_of_not_lt h2) (Nat.le_of_not_lt h1)
      have e : b.h * c.w = b.w * c.h := by
        calc b.h * c.w = c.w * b.h := Nat.mul_comm _ _
          _ = c.h * b.w := heq.symm
          _ = b.w * c.h := Nat.mul_comm _ _
      refine ⟨⟨?_, ?_, ?_, ?_⟩, ⟨?_, ?_⟩, Or.inl ⟨?_, ?_⟩, Or.inl ?_⟩
      · exact Nat.le_refl _
      · exact Nat.le_refl _
      · exact Nat.le_refl _
      · exact Nat.le_refl _
      · simp
      · simp
      · exact Nat.le_of_eq e
      · rw [Nat.succ_mul, e]
        exact Nat.lt_add_of_pos_right hcw
      · trivial

/-- C2, witness: the 16:9 end-to-end case of the spec, a 1920 x 1080
content in a 1280 x 1280 square bound, yielding 1280 x 720 at vertical
offset 280. -/
theorem C2_letterbox_geometry_amended_witness :
    0 < (1920 : Nat) ∧ 0 < (1080 : Nat) ∧ 0 < (1280 : Nat) ∧
    computeFit ⟨1920, 1080⟩ ⟨0, 0, 1280, 1280⟩ = ⟨0, 280, 1280, 720⟩ ∧
    (fit_contained (computeFit ⟨1920, 1080⟩ ⟨0, 0, 1280, 1280⟩)
        ⟨0, 0, 1280, 1280⟩ ∧
      fit_centered (computeFit ⟨1920, 1080⟩ ⟨0, 0, 1280, 1280⟩)
        ⟨0, 0, 1280, 1280⟩ ∧
      aspect_within_rounding ⟨1920, 1080⟩
        (computeFit ⟨1920, 1080⟩ ⟨0, 0, 1280, 1280⟩) ∧
      ((computeFit ⟨1920, 1080⟩ ⟨0, 0, 1280, 1280⟩).w = 1280 ∨
        (computeFit ⟨1920, 1080⟩ ⟨0, 0, 1280, 1280⟩).h = 1280)) :=
  ⟨by decide, by decide, by decide, by decide,
    C2_letterbox_geometry_amended ⟨1920, 1080⟩ ⟨0, 0, 1280, 1280⟩
      (by decide) (by decide) (by decide) (by decide)⟩

/-- C3. After a negotiation in which the process-wide NVMM init check
failed, the element carries no NVMM flag; a buffer that is neither CUDA
memory nor classifiable as GL (because no GL context is available or the
memory is not a GL PBO) is classified as system memory on its side, and the
whole transform behaves exactly as for an untagged system-memory buffer on
that side. The first block treats the input buffer, the second the output
buffer. -/
theorem C3_uninitialized_subsystem_system_path (e : CopyElem)
    (tagIn tagOut : Bool) (in_mem out_mem : MemFlags)
    (oracle : Strategy → Bool) :
    (in_mem.isCudaMemory = false →
      ((gst_cuda_memory_copy_set_info false tagIn tagOut e).gl_context =
          false ∨ in_mem.isGlMemoryPbo = false) →
      classify_input (gst_cuda_memory_copy_set_info false tagIn tagOut e)
          in_mem = MemType.system ∧
      gst_cuda_memory_copy_transform
          (gst_cuda_memory_copy_set_info false tagIn tagOut e) in_mem
          out_mem oracle =
        gst_cuda_memory_copy_transform
          (gst_cuda_memory_copy_set_info false tagIn tagOut e)
          ⟨false, false⟩ out_mem oracle) ∧
    (out_mem.isCudaMemory = false →
      ((gst_cuda_memory_copy_set_info false tagIn tagOut e).gl_context =
          false ∨ out_mem.isGlMemoryPbo = false) →
      classify_output (gst_cuda_memory_copy_set_info false tagIn tagOut e)
          out_mem = MemType.system ∧
      gst_cuda_memory_copy_transform
          (gst_cuda_memory_copy_set_info false tagIn tagOut e) in_mem
          out_mem oracle =
        gst_cuda_memory_copy_transform
          (gst_cuda_memory_copy_set_info false tagIn tagOut e) in_mem
          ⟨false, false⟩ oracle) := by
  constructor
  · intro hc hg
    have hcl : classify_input (gst_cuda_memory_copy_set_info false tagIn
        tagOut e) in_mem = MemType.system := by
      rcases hg with hg | hg
      · simp [gst_cuda_memory_copy_set_info] at hg
        simp [gst_cuda_memory_copy_set_info, classify_input, hc, hg]
      · simp [gst_cuda_memory_copy_set_info, classify_input, hc, hg]
    refine ⟨hcl, ?_⟩
    have hcl2 : classify_input (gst_cuda_memory_copy_set_info false tagIn
        tagOut e) ⟨false, false⟩ = MemType.system := by
      simp [gst_cuda_memory_copy_set_info, classify_input]
    unfold gst_cuda_memory_copy_transform
    rw [hcl, hcl2]
  · intro hc hg
    have hcl : classify_output (gst_cuda_memory_copy_set_info false tagIn
        tagOut e) out_mem = MemType.system := by
      rcases hg with hg | hg
      · simp [gst_cuda_memory_copy_set_info] at hg
        simp [gst_cuda_memory_copy_set_info, classify_output, hc, hg]
      · simp [gst_cuda_memory_copy_set_info, classify_output, hc, hg]
    refine ⟨hcl, ?_⟩
    have hcl2 : classify_output (gst_cuda_memory_copy_set_info false tagIn
        tagOut e) ⟨false, false⟩ = MemType.system := by
      simp [gst_cuda_memory_copy_set_info, classify_output]
    unfold gst_cuda_memory_copy_transform
    rw [hcl, hcl2]

/-- C3, witness: an element negotiated with NVMM tags on both sides while
the NVMM init check failed and no GL context exists; a GL PBO input buffer
is classified as system memory and the transform runs the system path. -/
theorem C3_uninitialized_subsystem_system_path_witness :
    classify_input (gst_cuda_memory_copy_set_info false true true
        ⟨true, true, false⟩) ⟨false, true⟩ = MemType.system ∧
    gst_cuda_memory_copy_transform
        (gst_cuda_memory_copy_set_info false true true ⟨true, true, false⟩)
        ⟨false, true⟩ ⟨false, false⟩ oracle_all_fail =
      gst_cuda_memory_copy_transform
        (gst_cuda_memory_copy_set_info false true true ⟨true, true, false⟩)
        ⟨false, false⟩ ⟨false, false⟩ oracle_all_fail :=
  (C3_uninitialized_subsystem_system_path ⟨true, true, false⟩ true true
      ⟨false, true⟩ ⟨false, false⟩ oracle_all_fail).1 rfl (Or.inl rfl)

/-- Helper: if the planes at offsets below m succeed and the plane at
offset m fails within the remaining iterations, the loop result is false
and no plane beyond the failing one is copied. -/
theorem plane_loop_first_fail (f : Nat → Bool) :
    ∀ (m i rem : Nat) (r0 : Bool), (∀ j, j < m → f (i + j) = true) →
    f (i + m) = false → m < rem →
    (plane_loop f i rem r0).1 = false ∧
    ∀ (j : Nat) (ok : Bool), i + m < j →
      CudaEv.copy_plane j ok ∉ (plane_loop f i rem r0).2 := by
  intro m
  induction m with
  | zero =>
    intro i rem r0 hprev hfail hlt
    cases rem with
    | zero => omega
    | succ rem =>
      have hf : f i = false := by simpa using hfail
      simp only [plane_loop, hf]
      refine ⟨rfl, ?_⟩
      intro j ok hj hmem
      simp only [Bool.false_eq_true, if_false, List.mem_singleton] at hmem
      have : j = i := by
        cases hmem
        rfl
      omega
  | succ m ih =>
    intro i rem r0 hprev hfail hlt
    cases rem with
    | zero => omega
    | succ rem =>
      have hfi : f i = true := by
        have := hprev 0 (Nat.succ_pos _)
        simpa using this
      have ihres := ih (i + 1) rem true
        (fun j hj => by
          have h := hprev (j + 1) (Nat.succ_lt_succ hj)
          have e : i + (j + 1) = i + 1 + j := by omega
          rwa [e] at h)
        (by
          have e : i + (m + 1) = i + 1 + m := by omega
          rwa [e] at hfail)
        (by omega)
      simp only [plane_loop, hfi, if_true]
      refine ⟨ihres.1, ?_⟩
      intro j ok hj hmem
      rcases List.mem_cons.mp hmem with h | h
      · have : j = i := by
          cases h
          rfl
        omega
      · exact ihres.2 j ok (by omega) h

/-- C5. When the maps and the context push succeed and the copy of plane k
is the first to fail, the device copy routine enqueues no copy for any
later plane, still synchronizes the stream, pops the execution context,
unmaps both buffers, and returns failure. In addition, on every run the
input buffer is unmapped whenever its map succeeded, the output buffer is
unmapped whenever both maps succeeded, and the context is popped whenever
its push succeeded. -/
theorem C5_plane_failure_cleanup (mapInOk mapOutOk pushOk : Bool)
    (f : Nat → Bool) (n k : Nat) (h1 : mapInOk = true) (h2 : mapOutOk = true)
    (h3 : pushOk = true) (hk : k < n) (hprev : ∀ j, j < k → f j = true)
    (hfail : f k = false) :
    (gst_cuda_memory_copy_transform_cuda mapInOk mapOutOk pushOk f n).1 =
        false ∧
    (∀ (j : Nat) (ok : Bool), k < j →
      CudaEv.copy_plane j ok ∉
        (gst_cuda_memory_copy_transform_cuda mapInOk mapOutOk pushOk f
            n).2) ∧
    CudaEv.stream_sync ∈
      (gst_cuda_memory_copy_transform_cuda mapInOk mapOutOk pushOk f n).2 ∧
    CudaEv.pop_ctx ∈
      (gst_cuda_memory_copy_transform_cuda mapInOk mapOutOk pushOk f n).2 ∧
    CudaEv.unmap_in ∈
      (gst_cuda_memory_copy_transform_cuda mapInOk mapOutOk pushOk f n).2 ∧
    CudaEv.unmap_out ∈
      (gst_cuda_memory_copy_transform_cuda mapInOk mapOutOk pushOk f n).2 ∧
    (∀ (a b p : Bool) (g : Nat → Bool) (m : Nat), a = true →
      CudaEv.unmap_in ∈
        (gst_cuda_memory_copy_transform_cuda a b p g m).2) ∧
    (∀ (a b p : Bool) (g : Nat → Bool) (m : Nat), a = true → b = true →
      CudaEv.unmap_out ∈
        (gst_cuda_memory_copy_transform_cuda a b p g m).2) ∧
    (∀ (a b p : Bool) (g : Nat → Bool) (m : Nat), a = true → b = true →
      p = true →
      CudaEv.pop_ctx ∈
        (gst_cuda_memory_copy_transform_cuda a b p g m).2) := by
  subst h1 h2 h3
  have hmain := plane_loop_first_fail f k 0 n false
    (fun j hj => by simpa using hprev j hj) (by simpa using hfail) hk
  simp only [gst_cuda_memory_copy_transform_cuda, Bool.not_true,
    Bool.false_eq_true, if_false]
  refine ⟨hmain.1, ?_, ?_, ?_, ?_, ?_, ?_, ?_, ?_⟩
  · intro j ok hj hmem
    rcases List.mem_append.mp hmem with h12 | h3
    · rcases List.mem_append.mp h12 with h1 | h2
      · simp at h1
      · exact hmain.2 j ok (by omega) h2
    · simp at h3
  · simp
  · simp
  · simp
  · simp
  · intro a b p g m ha
    subst ha
    cases b <;> cases p <;>
      simp [gst_cuda_memory_copy_transform_cuda]
  · intro a b p g m ha hb
    subst ha
    subst hb
    cases p <;> simp [gst_cuda_memory_copy_transform_cuda]
  · intro a b p g m ha hb hp
    subst ha
    subst hb
    subst hp
    simp [gst_cuda_memory_copy_transform_cuda]

/-- C5, witness: two planes whose first copy fails immediately. -/
theorem C5_plane_failure_cleanup_witness :
    (gst_cuda_memory_copy_transform_cuda true true true (fun _ => false)
          2).1 = false ∧
    (∀ (j : Nat) (ok : Bool), 0 < j →
      CudaEv.copy_plane j ok ∉
        (gst_cuda_memory_copy_transform_cuda true true true (fun _ => false)
            2).2) ∧
    CudaEv.stream_sync ∈
      (gst_cuda_memory_copy_transform_cuda true true true (fun _ => false)
          2).2 ∧
    CudaEv.pop_ctx ∈
      (gst_cuda_memory_copy_transform_cuda true true true (fun _ => false)
          2).2 ∧
    CudaEv.unmap_in ∈
      (gst_cuda_memory_copy_transform_cuda true true true (fun _ => false)
          2).2 ∧
    CudaEv.unmap_out ∈
      (gst_cuda_memory_copy_transform_cuda true true true (fun _ => false)
          2).2 ∧
    (∀ (a b p : Bool) (g : Nat → Bool) (m : Nat), a = true →
      CudaEv.unmap_in ∈
        (gst_cuda_memory_copy_transform_cuda a b p g m).2) ∧
    (∀ (a b p : Bool) (g : Nat → Bool) (m : Nat), a = true → b = true →
      CudaEv.unmap_out ∈
        (gst_cuda_memory_copy_transform_cuda a b p g m).2) ∧
    (∀ (a b p : Bool) (g : Nat → Bool) (m : Nat), a = true → b = true →
      p = true →
      CudaEv.pop_ctx ∈
        (gst_cuda_memory_copy_transform_cuda a b p g m).2) :=
  C5_plane_failure_cleanup true true true (fun _ => false) 2 0 rfl rfl rfl
    (by omega) (fun j hj => absurd hj (Nat.not_lt_zero j)) rfl

set_option maxHeartbeats 1600000 in
/-- C6. First block: a plane-count mismatch between the surface descriptor
and the negotiated video info makes the NVMM descriptor fill fail, so the
device copy and with it the frame fail. Second block: when the fill
succeeds, every per-plane descriptor is taken from the plane parameters of
the surface itself: base pointer plus the surface byte offset, the surface
pitch, the surface width times bytes per pixel, and the surface height.
Third block: whenever an NVMM buffer is involved on either side, the
transform never attempts the staged sysmem fallback, and with every copy
routine failing it returns GST_FLOW_ERROR. -/
theorem C6_nvmm_descriptor_and_no_fallback :
    (∀ (mapOk : Bool) (s : NvBufSurface) (sp : NvBufSurfaceParams) (n : Nat),
      s.surfaceList = some sp → sp.planeParams.num_planes ≠ n →
      nvmm_map_and_fill_copy2d mapOk s n = none) ∧
    (∀ (mapOk : Bool) (s : NvBufSurface) (sp : NvBufSurfaceParams) (n : Nat)
      (ds : List CopyPlaneDesc), s.surfaceList = some sp →
      nvmm_map_and_fill_copy2d mapOk s n = some ds →
      ds.length = sp.planeParams.num_planes ∧
      ∀ (i : Nat) (h : i < ds.length),
        (ds.get ⟨i, h⟩).ptr = sp.dataPtr + sp.planeParams.offset.getD i 0 ∧
        (ds.get ⟨i, h⟩).pitch = sp.planeParams.pitch.getD i 0 ∧
        (ds.get ⟨i, h⟩).widthInBytes =
          sp.planeParams.width.getD i 0 *
            sp.planeParams.bytesPerPix.getD i 0 ∧
        (ds.get ⟨i, h⟩).height = sp.planeParams.height.getD i 0) ∧
    (∀ (self : CopyElem) (in_mem out_mem : MemFlags)
      (oracle : Strategy → Bool),
      self.in_nvmm = true ∨ self.out_nvmm = true →
      Strategy.sysmem ∉
          (gst_cuda_memory_copy_transform self in_mem out_mem oracle).2 ∧
      ((∀ st, oracle st = false) →
        (gst_cuda_memory_copy_transform self in_mem out_mem oracle).1 =
          FlowReturn.error)) := by
  refine ⟨?_, ?_, ?_⟩
  · intro mapOk s sp n hsp hne
    cases mapOk <;> simp [nvmm_map_and_fill_copy2d, hsp, hne]
  · intro mapOk s sp n ds hsp hds
    cases mapOk with
    | false => simp [nvmm_map_and_fill_copy2d] at hds
    | true =>
      simp only [nvmm_map_and_fill_copy2d, hsp, Bool.not_true,
        Bool.false_eq_true, if_false] at hds
      by_cases hne : sp.planeParams.num_planes ≠ n
      · simp [hne] at hds
      · simp only [hne, if_false] at hds
        cases hmt : cu_memory_type_of s.memType with
        | none => rw [hmt] at hds; simp at hds
        | some mt =>
          rw [hmt] at hds
          simp only [Option.some_inj] at hds
          subst hds
          refine ⟨by simp, ?_⟩
          intro i h
          have hi : i < sp.planeParams.num_planes := by
            simpa using h
          simp [List.get_eq_getElem]
  · intro self in_mem out_mem oracle h
    have key1 : ∀ it ot : MemType,
        (it = MemType.nvmm ∧ self.in_nvmm = true) ∨
          (ot = MemType.nvmm ∧ self.out_nvmm = true) →
        Strategy.sysmem ∉ (transform_from_types self it ot oracle).2 := by
      intro it ot hh
      rcases hh with ⟨rfl, h2⟩ | ⟨rfl, h2⟩
      · cases ot <;>
          simp only [transform_from_types, use_device_copy_flag, h2] <;>
          split_ifs <;> simp_all
      · cases it <;>
          simp only [transform_from_types, use_device_copy_flag, h2] <;>
          split_ifs <;> simp_all
    have key2 : ∀ it ot : MemType,
        it = MemType.nvmm ∨ ot = MemType.nvmm → (∀ st, oracle st = false) →
        (transform_from_types self it ot oracle).1 = FlowReturn.error := by
      intro it ot hh horacle
      rcases hh with rfl | rfl
      · cases ot <;>
          simp only [transform_from_types, use_device_copy_flag, horacle] <;>
          split_ifs <;> simp_all
      · cases it <;>
          simp only [transform_from_types, use_device_copy_flag, horacle] <;>
          split_ifs <;> simp_all
    rcases h with h | h
    · have hc : classify_input self in_mem = MemType.nvmm := by
        simp [classify_input, h]
      refine ⟨?_, ?_⟩
      · unfold gst_cuda_memory_copy_transform
        exact key1 _ _ (Or.inl ⟨hc, h⟩)
      · intro horacle
        unfold gst_cuda_memory_copy_transform
        exact key2 _ _ (Or.inl hc) horacle
    · have hc : classify_output self out_mem = MemType.nvmm := by
        simp [classify_output, h]
      refine ⟨?_, ?_⟩
      · unfold gst_cuda_memory_copy_transform
        exact key1 _ _ (Or.inr ⟨hc, h⟩)
      · intro horacle
        unfold gst_cuda_memory_copy_transform
        exact key2 _ _ (Or.inr hc) horacle

/-- C6, witness: a two-plane device surface at base pointer 1000 with
offsets 0 and 64; the fill fails against a three-plane negotiated format,
succeeds against a two-plane one with descriptors read from the surface,
and an NVMM-involved transform never stages through sysmem and fails hard
when every copy fails. -/
theorem C6_nvmm_descriptor_and_no_fallback_witness :
    nvmm_map_and_fill_copy2d true
        ⟨NvBufSurfaceMemType.mem_default,
          some ⟨1000, ⟨2, [0, 64], [32, 32], [16, 8], [8, 4], [1, 2]⟩⟩⟩ 3 =
      none ∧
    (([⟨CuMemoryType.device, 1000, 32, 16, 8⟩,
          ⟨CuMemoryType.device, 1064, 32, 16, 4⟩] :
        List CopyPlaneDesc).length = 2 ∧
      ∀ (i : Nat)
        (h : i < ([⟨CuMemoryType.device, 1000, 32, 16, 8⟩,
            ⟨CuMemoryType.device, 1064, 32, 16, 4⟩] :
          List CopyPlaneDesc).length),
        (([⟨CuMemoryType.device, 1000, 32, 16, 8⟩,
            ⟨CuMemoryType.device, 1064, 32, 16, 4⟩] :
          List CopyPlaneDesc).get ⟨i, h⟩).ptr =
            1000 + ([0, 64] : List Nat).getD i 0 ∧
        (([⟨CuMemoryType.device, 1000, 32, 16, 8⟩,
            ⟨CuMemoryType.device, 1064, 32, 16, 4⟩] :
          List CopyPlaneDesc).get ⟨i, h⟩).pitch =
            ([32, 32] : List Nat).getD i 0 ∧
        (([⟨CuMemoryType.device, 1000, 32, 16, 8⟩,
            ⟨CuMemoryType.device, 1064, 32, 16, 4⟩] :
          List CopyPlaneDesc).get ⟨i, h⟩).widthInBytes =
            ([16, 8] : List Nat).getD i 0 * ([1, 2] : List Nat).getD i 0 ∧
        (([⟨CuMemoryType.device, 1000, 32, 16, 8⟩,
            ⟨CuMemoryType.device, 1064, 32, 16, 4⟩] :
          List CopyPlaneDesc).get ⟨i, h⟩).height =
            ([8, 4] : List Nat).getD i 0) ∧
    (Strategy.sysmem ∉
        (gst_cuda_memory_copy_transform ⟨true, false, false⟩ ⟨false, false⟩
            ⟨false, false⟩ oracle_all_fail).2 ∧
      ((∀ st, oracle_all_fail st = false) →
        (gst_cuda_memory_copy_transform ⟨true, false, false⟩ ⟨false, false⟩
            ⟨false, false⟩ oracle_all_fail).1 = FlowReturn.error)) :=
  ⟨C6_nvmm_descriptor_and_no_fallback.1 true
      ⟨NvBufSurfaceMemType.mem_default,
        some ⟨1000, ⟨2, [0, 64], [32, 32], [16, 8], [8, 4], [1, 2]⟩⟩⟩
      ⟨1000, ⟨2, [0, 64], [32, 32], [16, 8], [8, 4], [1, 2]⟩⟩ 3 rfl
      (by decide),
    C6_nvmm_descriptor_and_no_fallback.2.1 true
      ⟨NvBufSurfaceMemType.mem_default,
        some ⟨1000, ⟨2, [0, 64], [32, 32], [16, 8], [8, 4], [1, 2]⟩⟩⟩
      ⟨1000, ⟨2, [0, 64], [32, 32], [16, 8], [8, 4], [1, 2]⟩⟩ 2
      [⟨CuMemoryType.device, 1000, 32, 16, 8⟩,
        ⟨CuMemoryType.device, 1064, 32, 16, 4⟩] rfl (by decide),
    C6_nvmm_descriptor_and_no_fallback.2.2 ⟨true, false, false⟩
      ⟨false, false⟩ ⟨false, false⟩ oracle_all_fail (Or.inl rfl)⟩

/-- C7. On a window whose display supports alpha blending, set_alpha
selects the source-weighted (FROMSOURCE) equation for an alpha strictly
below 1.0 and the PREMULTIPLIED equation for alpha equal to 1.0, and in
both cases records the alpha coefficient. -/
theorem C7_set_alpha_blend_selection (w : GstWlWindow) (a : ℚ)
    (hb : w.blend_func = true) :
    (a < 1 →
      (gst_wl_window_set_alpha w a).blend_equation =
        some BlendEquation.fromSource) ∧
    (a = 1 →
      (gst_wl_window_set_alpha w a).blend_equation =
        some BlendEquation.premultiplied) ∧
    (gst_wl_window_set_alpha w a).recorded_alpha = some a := by
  refine ⟨?_, ?_, ?_⟩
  · intro hlt
    simp [gst_wl_window_set_alpha, hb, hlt]
  · intro heq
    subst heq
    simp [gst_wl_window_set_alpha, hb]
  · simp [gst_wl_window_set_alpha, hb]

/-- C7, witness at alpha one half on a window with blending support. -/
theorem C7_set_alpha_blend_selection_witness :
    ((1 : ℚ) / 2 < 1 →
      (gst_wl_window_set_alpha
          { gst_wl_window_init_state with blend_func := true }
          (1 / 2)).blend_equation = some BlendEquation.fromSource) ∧
    ((1 : ℚ) / 2 = 1 →
      (gst_wl_window_set_alpha
          { gst_wl_window_init_state with blend_func := true }
          (1 / 2)).blend_equation = some BlendEquation.premultiplied) ∧
    (gst_wl_window_set_alpha
        { gst_wl_window_init_state with blend_func := true }
        (1 / 2)).recorded_alpha = some (1 / 2) :=
  C7_set_alpha_blend_selection
    { gst_wl_window_init_state with blend_func := true } (1 / 2) rfl

/-- C9. Every set_render_rectangle call leaves a border filler buffer
attached to the area surface whose format is XRGB8888-equivalent and whose
content is entirely zero; its size is 1 x 1 when the display has viewporter
support and equals the render rectangle size otherwise. The border_inv
hypothesis records that a set no_border_update flag can only stem from an
earlier viewporter border update, which is true of every reachable state
and is preserved. -/
theorem C9_border_buffer_properties (bigEndian : Bool) (w : GstWlWindow)
    (x y rw rh : Int) (hinv : border_inv bigEndian w) :
    border_inv bigEndian
      (gst_wl_window_set_render_rectangle bigEndian w x y rw rh) ∧
    ∃ bb,
      (gst_wl_window_set_render_rectangle bigEndian w x y rw
          rh).attached_border_buffer = some bb ∧
      is_xrgb8888_equivalent bb.format = true ∧
      (∀ v ∈ bb.data, v = 0) ∧
      (if w.viewporter then bb.width = 1 ∧ bb.height = 1
       else bb.width = rw ∧ bb.height = rh) := by
  by_cases hnb : w.no_border_update = true
  · obtain ⟨hv, hab⟩ := hinv hnb
    have hres : gst_wl_window_set_render_rectangle bigEndian w x y rw rh =
        { w with render_rectangle := ⟨x, y, rw, rh⟩ } := by
      unfold gst_wl_window_set_render_rectangle gst_wl_window_update_borders
      simp [hnb]
    rw [hres]
    refine ⟨fun _ => ⟨hv, by simpa using hab⟩,
      ⟨border_buffer_1x1 bigEndian, by simpa using hab, ?_, ?_, ?_⟩⟩
    · simp [border_buffer_1x1, border_format, is_xrgb8888_equivalent]
      cases bigEndian <;> simp [is_xrgb8888_equivalent]
    · intro v hv2
      simp [border_buffer_1x1] at hv2
      exact hv2
    · simp [hv, border_buffer_1x1]
  · have hnb2 : w.no_border_update = false := by
      cases h : w.no_border_update
      · rfl
      · exact absurd h hnb
    cases hvp : w.viewporter
    · have hres : gst_wl_window_set_render_rectangle bigEndian w x y rw rh =
          { w with render_rectangle := ⟨x, y, rw, rh⟩,
                   no_border_update := false,
                   attached_border_buffer :=
                     some ⟨rw, rh, border_format bigEndian,
                       List.replicate (rw * rh * 4).toNat 0⟩,
                   border_attach_count := w.border_attach_count + 1 } := by
        unfold gst_wl_window_set_render_rectangle
          gst_wl_window_update_borders
        simp [hnb2, hvp]
      rw [hres]
      refine ⟨fun h2 => by simp at h2,
        ⟨⟨rw, rh, border_format bigEndian,
            List.replicate (rw * rh * 4).toNat 0⟩, by simp, ?_, ?_, ?_⟩⟩
      · cases bigEndian <;> simp [border_format, is_xrgb8888_equivalent]
      · intro v hv2
        exact List.eq_of_mem_replicate hv2
      · simp [hvp]
    · have hres : gst_wl_window_set_render_rectangle bigEndian w x y rw rh =
          { w with render_rectangle := ⟨x, y, rw, rh⟩,
                   no_border_update := true,
                   attached_border_buffer :=
                     some (border_buffer_1x1 bigEndian),
                   border_attach_count := w.border_attach_count + 1 } := by
        unfold gst_wl_window_set_render_rectangle
          gst_wl_window_update_borders
        simp [hnb2, hvp, border_buffer_1x1]
      rw [hres]
      refine ⟨fun _ => ⟨by simpa using hvp, by simp⟩,
        ⟨border_buffer_1x1 bigEndian, by simp, ?_, ?_, ?_⟩⟩
      · cases bigEndian <;>
          simp [border_buffer_1x1, border_format, is_xrgb8888_equivalent]
      · intro v hv2
        simp [border_buffer_1x1] at hv2
        exact hv2
      · simp [hvp, border_buffer_1x1]

/-- C9, witness: first call on a fresh window without viewporter support,
attaching a full-size 100 x 50 border buffer. -/
theorem C9_border_buffer_properties_witness :
    border_inv false
      (gst_wl_window_set_render_rectangle false gst_wl_window_init_state 0 0
        100 50) ∧
    ∃ bb,
      (gst_wl_window_set_render_rectangle false gst_wl_window_init_state 0 0
          100 50).attached_border_buffer = some bb ∧
      is_xrgb8888_equivalent bb.format = true ∧
      (∀ v ∈ bb.data, v = 0) ∧
      (if gst_wl_window_init_state.viewporter then bb.width = 1 ∧ bb.height = 1
       else bb.width = 100 ∧ bb.height = 50) :=
  C9_border_buffer_properties false gst_wl_window_init_state 0 0 100 50
    (fun h => absurd h (by decide))

/-- Helper: once no_border_update is set on a viewporter display, every
further set_render_rectangle call leaves the flag, the viewporter bit, the
attached border buffer and the attach count untouched. -/
theorem apply_render_calls_skip (bigEndian : Bool) :
    ∀ (calls : List (Int × Int × Int × Int)) (w : GstWlWindow),
      w.viewporter = true → w.no_border_update = true →
      (apply_render_calls bigEndian w calls).no_border_update = true ∧
      (apply_render_calls bigEndian w calls).viewporter = true ∧
      (apply_render_calls bigEndian w calls).attached_border_buffer =
        w.attached_border_buffer ∧
      (apply_render_calls bigEndian w calls).border_attach_count =
        w.border_attach_count := by
  intro calls
  induction calls with
  | nil =>
    intro w hv hn
    exact ⟨hn, hv, rfl, rfl⟩
  | cons c rest ih =>
    intro w hv hn
    have hstep : gst_wl_window_set_render_rectangle bigEndian w c.1 c.2.1
        c.2.2.1 c.2.2.2 =
        { w with render_rectangle := ⟨c.1, c.2.1, c.2.2.1, c.2.2.2⟩ } := by
      unfold gst_wl_window_set_render_rectangle gst_wl_window_update_borders
      simp [hn]
    simp only [apply_render_calls, hstep]
    exact ih { w with render_rectangle := ⟨c.1, c.2.1, c.2.2.1, c.2.2.2⟩ }
      (by simpa using hv) (by simpa using hn)

/-- C10. On a display with viewporter support, the border update runs at
most once per window: starting from a fresh window (flag unset, no border
attach yet), any nonempty sequence of set_render_rectangle calls performs
exactly one border buffer attach, the attached buffer is the 1 x 1 zero
buffer from the first call, and the persistent flag remains set so every
later call skips the border path entirely. -/
theorem C10_border_update_once (bigEndian : Bool) (w : GstWlWindow)
    (calls : List (Int × Int × Int × Int)) (hv : w.viewporter = true)
    (hn : w.no_border_update = false) (hc : w.border_attach_count = 0)
    (hne : calls ≠ []) :
    (apply_render_calls bigEndian w calls).border_attach_count = 1 ∧
    (apply_render_calls bigEndian w calls).attached_border_buffer =
      some (border_buffer_1x1 bigEndian) ∧
    (apply_render_calls bigEndian w calls).no_border_update = true := by
  cases calls with
  | nil => exact absurd rfl hne
  | cons c rest =>
    have hstep : gst_wl_window_set_render_rectangle bigEndian w c.1 c.2.1
        c.2.2.1 c.2.2.2 =
        { w with render_rectangle := ⟨c.1, c.2.1, c.2.2.1, c.2.2.2⟩,
                 no_border_update := true,
                 attached_border_buffer := some (border_buffer_1x1 bigEndian),
                 border_attach_count := w.border_attach_count + 1 } := by
      unfold gst_wl_window_set_render_rectangle gst_wl_window_update_borders
      simp [hn, hv, border_buffer_1x1]
    simp only [apply_render_calls, hstep]
    have hres := apply_render_calls_skip bigEndian rest
      { w with render_rectangle := ⟨c.1, c.2.1, c.2.2.1, c.2.2.2⟩,
               no_border_update := true,
               attached_border_buffer := some (border_buffer_1x1 bigEndian),
               border_attach_count := w.border_attach_count + 1 }
      (by simpa using hv) (by simp)
    refine ⟨?_, ?_, hres.1⟩
    · rw [hres.2.2.2]
      simp [hc]
    · rw [hres.2.2.1]

/-- C10, witness: two calls on a fresh viewporter window attach the border
buffer exactly once. -/
theorem C10_border_update_once_witness :
    (apply_render_calls false
        { gst_wl_window_init_state with viewporter := true }
        [(0, 0, 10, 10), (5, 5, 20, 20)]).border_attach_count = 1 ∧
    (apply_render_calls false
        { gst_wl_window_init_state with viewporter := true }
        [(0, 0, 10, 10), (5, 5, 20, 20)]).attached_border_buffer =
      some (border_buffer_1x1 false) ∧
    (apply_render_calls false
        { gst_wl_window_init_state with viewporter := true }
        [(0, 0, 10, 10), (5, 5, 20, 20)]).no_border_update = true :=
  C10_border_update_once false
    { gst_wl_window_init_state with viewporter := true }
    [(0, 0, 10, 10), (5, 5, 20, 20)] rfl rfl rfl
    (fun h => List.noConfusion h)
